import Mathlib

/-!
Shallow embedding of the Unisender thin-client hooks and the test-banner
component.

Sources embedded:
- `useUnisender` (subscribe/unsubscribe hook): actions `subscribe`, `unsubscribe`.
- `useUnisender` (send hook): actions `sendEmail`, `sendTemplate`, `sendTest`.
- `UnisenderTestButton` component: mount effect, `handleTest`, render condition,
  hide timer, and its localStorage traffic.

Modelling choices:
- A network interaction is summarised by a `FetchOutcome`: either the fetch
  promise resolved and `response.json()` parsed (carrying the HTTP status and
  the parsed body), or the awaited chain threw (carrying the thrown value).
- The parsed JSON body is modelled as the record of exactly the fields the
  code ever reads (`error`, `person_id`, `message`, `job_id`) plus the
  `success` field that servers send but the client never reads.
- Each hook action is a total function from its parameters and the fetch
  outcome to the resolved result together with the ordered trace of effects
  it performs (`setIsLoading`, `setError`, the single `fetch` call). React
  state after the call is obtained by folding the trace over any prior state.
- JavaScript's `x || fallback` on an optional string treats both a missing
  field and the empty string as falsy; `jsOrString` reproduces that.
- `err instanceof Error ? err.message : "Network error"` is modelled by
  `JsThrown`: a thrown `Error` carries its message, any other thrown value
  maps to the generic message.
- `String.prototype.trim` and `String.prototype.includes` are modelled by
  structurally recursive functions over the character list; `includes` is
  only ever called with the one-character needle `"@"` in the source.
-/

namespace Unisender

/-- JSON values, used for the serialized request bodies built by
`JSON.stringify`; object fields keep insertion order and fields whose value
is `undefined` are omitted, as `JSON.stringify` does. -/
inductive Json where
  | str (s : String)
  | num (n : Int)
  | jbool (b : Bool)
  | jnull
  | obj (fields : List (String × Json))
  | arr (elems : List Json)

/-- The parsed JSON response body: exactly the fields the client code reads,
plus `success`, which servers send but the client never reads. Absent
fields are `none` (JavaScript `undefined`). -/
structure JsonBody where
  success : Option Bool := none
  error : Option String := none
  person_id : Option Int := none
  message : Option String := none
  job_id : Option String := none
  deriving DecidableEq

/-- A value thrown during `fetch` or `response.json()`: either an `Error`
instance carrying its `message`, or any other thrown value. -/
inductive JsThrown where
  | jsError (message : String)
  | nonError
  deriving DecidableEq

/-- Outcome of one `fetch` + `response.json()` interaction: the response
resolved with an HTTP status and a parsed JSON body, or the chain threw. -/
inductive FetchOutcome where
  | resolved (status : Nat) (body : JsonBody)
  | thrown (e : JsThrown)
  deriving DecidableEq

/-- The `Response.ok` predicate of the fetch API: status in the range 200-299. -/
def statusOk (status : Nat) : Bool :=
  200 ≤ status && status < 300

/-- JavaScript `x || fallback` for an optional string `x`: a missing field and
the empty string are both falsy. -/
def jsOrString (x : Option String) (fallback : String) : String :=
  match x with
  | some s => if s = "" then fallback else s
  | none => fallback

/-- The message extracted in the catch blocks:
`err instanceof Error ? err.message : "Network error"`. -/
def thrownMessage : JsThrown → String
  | .jsError m => m
  | .nonError => "Network error"

/-- One HTTP request as issued by a hook action. -/
structure Request where
  url : String
  method : String
  contentType : String
  body : Json

/-- The effects a hook action performs, in program order. -/
inductive Effect where
  | setLoading (b : Bool)
  | setErrorState (e : Option String)
  | fetchCall (req : Request)

/-- The hook's React state: the `isLoading` and `error` fields. -/
structure HookState where
  isLoading : Bool
  error : Option String
  deriving DecidableEq

/-- Apply one effect to the hook state (fetch does not touch React state). -/
def applyEffect (s : HookState) : Effect → HookState
  | .setLoading b => { s with isLoading := b }
  | .setErrorState e => { s with error := e }
  | .fetchCall _ => s

/-- Fold a trace of effects over a starting state. -/
def applyEffects (s : HookState) (es : List Effect) : HookState :=
  es.foldl applyEffect s

/-- Recognise the fetch effect in a trace. -/
def isFetchCall : Effect → Bool
  | .fetchCall _ => true
  | _ => false

/-- Parameters of `subscribe` (`SubscribeParams`). -/
structure SubscribeParams where
  email : String
  name : Option String := none
  tags : Option String := none
  deriving DecidableEq

/-- Parameters of `sendEmail` (`SendEmailParams`); `substitutions` is a
string-to-string record, `tags` a string array. -/
structure SendEmailParams where
  to_email : String
  to_name : Option String := none
  subject : String
  body_html : String
  substitutions : Option (List (String × String)) := none
  tags : Option (List String) := none
  deriving DecidableEq

/-- Parameters of `sendTemplate` (`SendTemplateParams`). -/
structure SendTemplateParams where
  to_email : String
  to_name : Option String := none
  template_id : String
  subject : Option String := none
  substitutions : Option (List (String × String)) := none
  deriving DecidableEq

/-- Parameters of `sendTest` (`SendTestParams`). -/
structure SendTestParams where
  to_email : String
  deriving DecidableEq

/-- Result type of the subscribe/unsubscribe hook (`UnisenderResult`);
absent fields are `none`. -/
structure UnisenderResult where
  success : Bool
  person_id : Option Int := none
  message : Option String := none
  error : Option String := none
  deriving DecidableEq

/-- Result type of the send hook (`SendResult`); absent fields are `none`. -/
structure SendResult where
  success : Bool
  job_id : Option String := none
  error : Option String := none
  deriving DecidableEq

/-- An optional JSON object field: omitted when the value is `undefined`. -/
def optJsonField (key : String) : Option Json → List (String × Json)
  | some j => [(key, j)]
  | none => []

/-- JSON object for a string-to-string record. -/
def recordJson (m : List (String × String)) : Json :=
  .obj (m.map fun kv => (kv.1, .str kv.2))

/-- JSON array for a string array. -/
def stringArrayJson (l : List String) : Json :=
  .arr (l.map Json.str)

/-- `JSON.stringify({ email, name, tags })` in `subscribe`. -/
def SubscribeParams.toJson (p : SubscribeParams) : Json :=
  .obj ([("email", .str p.email)]
    ++ optJsonField "name" (p.name.map Json.str)
    ++ optJsonField "tags" (p.tags.map Json.str))

/-- `JSON.stringify({ email })` in `unsubscribe`. -/
def unsubscribeBodyJson (email : String) : Json :=
  .obj [("email", .str email)]

/-- `JSON.stringify(params)` in `sendEmail`. -/
def SendEmailParams.toJson (p : SendEmailParams) : Json :=
  .obj ([("to_email", .str p.to_email)]
    ++ optJsonField "to_name" (p.to_name.map Json.str)
    ++ [("subject", .str p.subject), ("body_html", .str p.body_html)]
    ++ optJsonField "substitutions" (p.substitutions.map recordJson)
    ++ optJsonField "tags" (p.tags.map stringArrayJson))

/-- `JSON.stringify(params)` in `sendTemplate`. -/
def SendTemplateParams.toJson (p : SendTemplateParams) : Json :=
  .obj ([("to_email", .str p.to_email)]
    ++ optJsonField "to_name" (p.to_name.map Json.str)
    ++ [("template_id", .str p.template_id)]
    ++ optJsonField "subject" (p.subject.map Json.str)
    ++ optJsonField "substitutions" (p.substitutions.map recordJson))

/-- `JSON.stringify(params)` in `sendTest`. -/
def SendTestParams.toJson (p : SendTestParams) : Json :=
  .obj [("to_email", .str p.to_email)]

/-- The request `subscribe` issues:
`fetch(apiUrl + "?action=subscribe", { method: "POST", headers: { "Content-Type": "application/json" }, body: JSON.stringify({ email, name, tags }) })`. -/
def subscribeRequest (apiUrl : String) (p : SubscribeParams) : Request :=
  { url := apiUrl ++ "?action=subscribe", method := "POST",
    contentType := "application/json", body := p.toJson }

/-- The request `unsubscribe` issues. -/
def unsubscribeRequest (apiUrl : String) (email : String) : Request :=
  { url := apiUrl ++ "?action=unsubscribe", method := "POST",
    contentType := "application/json", body := unsubscribeBodyJson email }

/-- The request `sendEmail` issues. -/
def sendEmailRequest (apiUrl : String) (p : SendEmailParams) : Request :=
  { url := apiUrl ++ "?action=send", method := "POST",
    contentType := "application/json", body := p.toJson }

/-- The request `sendTemplate` issues. -/
def sendTemplateRequest (apiUrl : String) (p : SendTemplateParams) : Request :=
  { url := apiUrl ++ "?action=send-template", method := "POST",
    contentType := "application/json", body := p.toJson }

/-- The request `sendTest` issues. -/
def sendTestRequest (apiUrl : String) (p : SendTestParams) : Request :=
  { url := apiUrl ++ "?action=test", method := "POST",
    contentType := "application/json", body := p.toJson }

/-- The `subscribe` hook action: resolved result and ordered effect trace.
Mirrors the source: set loading, clear error, fetch; on `!response.ok` set
the error state to `data.error || "Subscribe failed"` and return
`{ success: false, error: data.error }`; on ok return
`{ success: true, person_id: data.person_id }`; on a throw set and return
the extracted message; `finally` resets loading. -/
def subscribe (apiUrl : String) (p : SubscribeParams) (outcome : FetchOutcome) :
    UnisenderResult × List Effect :=
  match outcome with
  | .resolved status data =>
    if !statusOk status then
      ({ success := false, error := data.error },
       [.setLoading true, .setErrorState none, .fetchCall (subscribeRequest apiUrl p),
        .setErrorState (some (jsOrString data.error "Subscribe failed")), .setLoading false])
    else
      ({ success := true, person_id := data.person_id },
       [.setLoading true, .setErrorState none, .fetchCall (subscribeRequest apiUrl p),
        .setLoading false])
  | .thrown e =>
    ({ success := false, error := some (thrownMessage e) },
     [.setLoading true, .setErrorState none, .fetchCall (subscribeRequest apiUrl p),
      .setErrorState (some (thrownMessage e)), .setLoading false])

/-- The `unsubscribe` hook action; fallback error string "Unsubscribe failed",
success result `{ success: true, message: data.message }`. -/
def unsubscribe (apiUrl : String) (email : String) (outcome : FetchOutcome) :
    UnisenderResult × List Effect :=
  match outcome with
  | .resolved status data =>
    if !statusOk status then
      ({ success := false, error := data.error },
       [.setLoading true, .setErrorState none, .fetchCall (unsubscribeRequest apiUrl email),
        .setErrorState (some (jsOrString data.error "Unsubscribe failed")), .setLoading false])
    else
      ({ success := true, message := data.message },
       [.setLoading true, .setErrorState none, .fetchCall (unsubscribeRequest apiUrl email),
        .setLoading false])
  | .thrown e =>
    ({ success := false, error := some (thrownMessage e) },
     [.setLoading true, .setErrorState none, .fetchCall (unsubscribeRequest apiUrl email),
      .setErrorState (some (thrownMessage e)), .setLoading false])

/-- The `sendEmail` hook action; fallback error string "Send failed",
success result `{ success: true, job_id: data.job_id }`. -/
def sendEmail (apiUrl : String) (p : SendEmailParams) (outcome : FetchOutcome) :
    SendResult × List Effect :=
  match outcome with
  | .resolved status data =>
    if !statusOk status then
      ({ success := false, error := data.error },
       [.setLoading true, .setErrorState none, .fetchCall (sendEmailRequest apiUrl p),
        .setErrorState (some (jsOrString data.error "Send failed")), .setLoading false])
    else
      ({ success := true, job_id := data.job_id },
       [.setLoading true, .setErrorState none, .fetchCall (sendEmailRequest apiUrl p),
        .setLoading false])
  | .thrown e =>
    ({ success := false, error := some (thrownMessage e) },
     [.setLoading true, .setErrorState none, .fetchCall (sendEmailRequest apiUrl p),
      .setErrorState (some (thrownMessage e)), .setLoading false])

/-- The `sendTemplate` hook action; fallback error string "Send failed". -/
def sendTemplate (apiUrl : String) (p : SendTemplateParams) (outcome : FetchOutcome) :
    SendResult × List Effect :=
  match outcome with
  | .resolved status data =>
    if !statusOk status then
      ({ success := false, error := data.error },
       [.setLoading true, .setErrorState none, .fetchCall (sendTemplateRequest apiUrl p),
        .setErrorState (some (jsOrString data.error "Send failed")), .setLoading false])
    else
      ({ success := true, job_id := data.job_id },
       [.setLoading true, .setErrorState none, .fetchCall (sendTemplateRequest apiUrl p),
        .setLoading false])
  | .thrown e =>
    ({ success := false, error := some (thrownMessage e) },
     [.setLoading true, .setErrorState none, .fetchCall (sendTemplateRequest apiUrl p),
      .setErrorState (some (thrownMessage e)), .setLoading false])

/-- The `sendTest` hook action; fallback error string "Test failed". -/
def sendTest (apiUrl : String) (p : SendTestParams) (outcome : FetchOutcome) :
    SendResult × List Effect :=
  match outcome with
  | .resolved status data =>
    if !statusOk status then
      ({ success := false, error := data.error },
       [.setLoading true, .setErrorState none, .fetchCall (sendTestRequest apiUrl p),
        .setErrorState (some (jsOrString data.error "Test failed")), .setLoading false])
    else
      ({ success := true, job_id := data.job_id },
       [.setLoading true, .setErrorState none, .fetchCall (sendTestRequest apiUrl p),
        .setLoading false])
  | .thrown e =>
    ({ success := false, error := some (thrownMessage e) },
     [.setLoading true, .setErrorState none, .fetchCall (sendTestRequest apiUrl p),
      .setErrorState (some (thrownMessage e)), .setLoading false])

/-- A fetch outcome the code treats as success: the response resolved with an
ok (2xx) status. Everything else takes a failure path. -/
def isOkOutcome : FetchOutcome → Bool
  | .resolved status _ => statusOk status
  | .thrown _ => false

/-- JavaScript whitespace trimming (`String.prototype.trim`), on the
character list: drop leading and trailing whitespace. -/
def jsTrimList (l : List Char) : List Char :=
  ((l.dropWhile Char.isWhitespace).reverse.dropWhile Char.isWhitespace).reverse

/-- `email.trim()` in `handleTest`. -/
def jsTrim (s : String) : String :=
  String.mk (jsTrimList s.data)

/-- Substring test on character lists, structurally recursive. -/
def jsIncludesList (needle : List Char) : List Char → Bool
  | [] => needle.isEmpty
  | c :: t => needle.isPrefixOf (c :: t) || jsIncludesList needle t

/-- `s.includes(needle)` (`String.prototype.includes`); the source only calls
it with the one-character needle "@". -/
def jsIncludes (s needle : String) : Bool :=
  jsIncludesList needle.data s.data

/-- The `status` state of the test button: "idle" | "success" | "error". -/
inductive TestStatus where
  | idle
  | tbSuccess
  | tbError
  deriving DecidableEq

/-- The React state of `UnisenderTestButton`, plus `timer`: the delay in
milliseconds of the pending `setTimeout` that will hide the banner
(`none` when no hide timer is pending). -/
structure ButtonState where
  isConfigured : Bool
  email : String
  status : TestStatus
  message : String
  timer : Option Nat
  deriving DecidableEq

/-- Initial state of the component: `useState(true)` for `isConfigured`
(hidden by default until the mount effect runs), empty email, idle status,
empty message, no pending timer. -/
def initialButtonState : ButtonState :=
  { isConfigured := true, email := "", status := .idle, message := "", timer := none }

/-- One localStorage operation on the banner's storage key space. -/
inductive StorageOp where
  | read (key : String)
  | write (key : String) (value : String)
  deriving DecidableEq

/-- The mount effect of `UnisenderTestButton`:
`const configured = localStorage.getItem(storageKey); setIsConfigured(configured === "true" && !forceShow)`.
`stored` is the value localStorage holds under `storageKey` (`none` when the
key is absent). Returns the new state and the storage operations performed. -/
def mountButton (storageKey : String) (forceShow : Bool) (stored : Option String)
    (s : ButtonState) : ButtonState × List StorageOp :=
  ({ s with isConfigured := (stored == some "true") && !forceShow }, [.read storageKey])

/-- The render condition: the component returns `null` when `isConfigured`,
and renders the banner otherwise. -/
def rendersBanner (s : ButtonState) : Bool :=
  !s.isConfigured

/-- `handleTest`: validate the email (non-blank after trim, contains "@"),
reset status and message, call `sendTest` with the trimmed email; on success
set success status/message, write "true" to localStorage under `storageKey`
and schedule a 3000 ms timer that hides the banner; on failure set error
status and `result.error || "Ошибка отправки"`. Returns the new state and
the storage operations performed. -/
def handleTest (apiUrl storageKey : String) (s : ButtonState) (outcome : FetchOutcome) :
    ButtonState × List StorageOp :=
  if jsTrim s.email = "" then
    ({ s with status := .tbError, message := "Введите email" }, [])
  else if !jsIncludes s.email "@" then
    ({ s with status := .tbError, message := "Неверный формат email" }, [])
  else
    let s1 := { s with status := .idle, message := "" }
    let result := (sendTest apiUrl { to_email := jsTrim s.email } outcome).1
    if result.success then
      ({ s1 with status := .tbSuccess,
                 message := "Тестовое письмо отправлено! Проверьте почту.",
                 timer := some 3000 },
       [.write storageKey "true"])
    else
      ({ s1 with status := .tbError, message := jsOrString result.error "Ошибка отправки" }, [])

/-- User-visible events after mount: typing in the email input, clicking the
test button (the fetch outcome summarises the network's answer to the
`sendTest` call), and the pending hide timer firing. -/
inductive ButtonEvent where
  | setEmail (v : String)
  | clickTest (outcome : FetchOutcome)
  | timerFire

/-- One step of the component. A click is a no-op when the banner is hidden
(the component rendered `null`, so the handler is unreachable); the timer
event is a no-op when no timer is pending, and otherwise runs
`setIsConfigured(true)`, hiding the banner. -/
def buttonStep (apiUrl storageKey : String) (s : ButtonState) :
    ButtonEvent → ButtonState × List StorageOp
  | .setEmail v => ({ s with email := v }, [])
  | .clickTest outcome =>
    if s.isConfigured then (s, [])
    else handleTest apiUrl storageKey s outcome
  | .timerFire =>
    match s.timer with
    | some _ => ({ s with isConfigured := true, timer := none }, [])
    | none => (s, [])

/-- Run a sequence of events, concatenating the storage operations. -/
def runEvents (apiUrl storageKey : String) (s : ButtonState) :
    List ButtonEvent → ButtonState × List StorageOp
  | [] => (s, [])
  | e :: es =>
    let step := buttonStep apiUrl storageKey s e
    let rest := runEvents apiUrl storageKey step.1 es
    (rest.1, step.2 ++ rest.2)

/-- A full component run: mount (one localStorage read) followed by the
events. `stored` is the value under `storageKey` at mount. -/
def runButton (apiUrl storageKey : String) (forceShow : Bool) (stored : Option String)
    (events : List ButtonEvent) : ButtonState × List StorageOp :=
  let m := mountButton storageKey forceShow stored initialButtonState
  let r := runEvents apiUrl storageKey m.1 events
  (r.1, m.2 ++ r.2)

/-! Helper lemmas shared by the claim theorems. -/

theorem statusOk_true_of (status : Nat) (h₁ : 200 ≤ status) (h₂ : status < 300) :
    statusOk status = true := by
  simp [statusOk]
  omega

theorem statusOk_false_of_not2xx {status : Nat} (h : ¬ (200 ≤ status ∧ status < 300)) :
    statusOk status = false := by
  simp [statusOk]
  omega

/-- C1: for every hook action, a resolved non-2xx response with a parsed JSON
body yields a result with `success = false` whose `error` field equals the
body's `error` field whenever that field is present; in particular a
`sendEmail` call answered with HTTP 400 and body `{error: "bad subject"}`
resolves to `{success: false, error: "bad subject"}` and leaves the hook's
error state "bad subject". -/
theorem claim_C1 :
    (∀ apiUrl p status body, ¬ (200 ≤ status ∧ status < 300) →
      (subscribe apiUrl p (.resolved status body)).1.success = false ∧
      ∀ e, body.error = some e → (subscribe apiUrl p (.resolved status body)).1.error = some e) ∧
    (∀ apiUrl email status body, ¬ (200 ≤ status ∧ status < 300) →
      (unsubscribe apiUrl email (.resolved status body)).1.success = false ∧
      ∀ e, body.error = some e → (unsubscribe apiUrl email (.resolved status body)).1.error = some e) ∧
    (∀ apiUrl p status body, ¬ (200 ≤ status ∧ status < 300) →
      (sendEmail apiUrl p (.resolved status body)).1.success = false ∧
      ∀ e, body.error = some e → (sendEmail apiUrl p (.resolved status body)).1.error = some e) ∧
    (∀ apiUrl p status body, ¬ (200 ≤ status ∧ status < 300) →
      (sendTemplate apiUrl p (.resolved status body)).1.success = false ∧
      ∀ e, body.error = some e → (sendTemplate apiUrl p (.resolved status body)).1.error = some e) ∧
    (∀ apiUrl p status body, ¬ (200 ≤ status ∧ status < 300) →
      (sendTest apiUrl p (.resolved status body)).1.success = false ∧
      ∀ e, body.error = some e → (sendTest apiUrl p (.resolved status body)).1.error = some e) ∧
    (sendEmail "https://api.example" { to_email := "t@e", subject := "s", body_html := "b" }
        (.resolved 400 { error := some "bad subject" })).1
      = { success := false, error := some "bad subject" } ∧
    ∀ s₀, (applyEffects s₀ (sendEmail "https://api.example"
        { to_email := "t@e", subject := "s", body_html := "b" }
        (.resolved 400 { error := some "bad subject" })).2).error = some "bad subject" := by
  refine ⟨?_, ?_, ?_, ?_, ?_, ?_, ?_⟩
  · intro apiUrl p status body h
    have hok := statusOk_false_of_not2xx h
    exact ⟨by simp [subscribe, hok], fun e he => by simp [subscribe, hok, he]⟩
  · intro apiUrl email status body h
    have hok := statusOk_false_of_not2xx h
    exact ⟨by simp [unsubscribe, hok], fun e he => by simp [unsubscribe, hok, he]⟩
  · intro apiUrl p status body h
    have hok := statusOk_false_of_not2xx h
    exact ⟨by simp [sendEmail, hok], fun e he => by simp [sendEmail, hok, he]⟩
  · intro apiUrl p status body h
    have hok := statusOk_false_of_not2xx h
    exact ⟨by simp [sendTemplate, hok], fun e he => by simp [sendTemplate, hok, he]⟩
  · intro apiUrl p status body h
    have hok := statusOk_false_of_not2xx h
    exact ⟨by simp [sendTest, hok], fun e he => by simp [sendTest, hok, he]⟩
  · rfl
  · intro s₀
    rfl

/-- C1 witness: a concrete non-2xx `subscribe` call, via `claim_C1`. -/
theorem claim_C1_witness :
    (subscribe "u" { email := "a@b.com" } (.resolved 404 { error := some "x" })).1.success = false ∧
    (subscribe "u" { email := "a@b.com" } (.resolved 404 { error := some "x" })).1.error = some "x" := by
  have h := claim_C1.1 "u" { email := "a@b.com" } 404 { error := some "x" } (by omega)
  exact ⟨h.1, h.2 "x" rfl⟩

/-- C3: every hook action answered with an ok (2xx) status and a parsed JSON
body resolves with `success = true`, and after any call (whatever the
outcome) the hook's `isLoading` is back to false; in particular `subscribe`
with email "a@b.com" answered `{success: true, person_id: 42}` resolves to
`{success: true, person_id: 42}` with final hook state
`{isLoading: false, error: none}` from any prior state. -/
theorem claim_C3 :
    (∀ apiUrl p status body, 200 ≤ status → status < 300 →
      (subscribe apiUrl p (.resolved status body)).1.success = true) ∧
    (∀ apiUrl email status body, 200 ≤ status → status < 300 →
      (unsubscribe apiUrl email (.resolved status body)).1.success = true) ∧
    (∀ apiUrl p status body, 200 ≤ status → status < 300 →
      (sendEmail apiUrl p (.resolved status body)).1.success = true) ∧
    (∀ apiUrl p status body, 200 ≤ status → status < 300 →
      (sendTemplate apiUrl p (.resolved status body)).1.success = true) ∧
    (∀ apiUrl p status body, 200 ≤ status → status < 300 →
      (sendTest apiUrl p (.resolved status body)).1.success = true) ∧
    (∀ apiUrl p outcome s₀,
      (applyEffects s₀ (subscribe apiUrl p outcome).2).isLoading = false) ∧
    (∀ apiUrl email outcome s₀,
      (applyEffects s₀ (unsubscribe apiUrl email outcome).2).isLoading = false) ∧
    (∀ apiUrl p outcome s₀,
      (applyEffects s₀ (sendEmail apiUrl p outcome).2).isLoading = false) ∧
    (∀ apiUrl p outcome s₀,
      (applyEffects s₀ (sendTemplate apiUrl p outcome).2).isLoading = false) ∧
    (∀ apiUrl p outcome s₀,
      (applyEffects s₀ (sendTest apiUrl p outcome).2).isLoading = false) ∧
    (subscribe "https://api.example" { email := "a@b.com" }
        (.resolved 200 { success := some true, person_id := some 42 })).1
      = { success := true, person_id := some 42 } ∧
    ∀ s₀, applyEffects s₀ (subscribe "https://api.example" { email := "a@b.com" }
        (.resolved 200 { success := some true, person_id := some 42 })).2
      = { isLoading := false, error := none } := by
  refine ⟨?_, ?_, ?_, ?_, ?_, ?_, ?_, ?_, ?_, ?_, ?_, ?_⟩
  · intro apiUrl p status body h₁ h₂
    simp [subscribe, statusOk_true_of status h₁ h₂]
  · intro apiUrl email status body h₁ h₂
    simp [unsubscribe, statusOk_true_of status h₁ h₂]
  · intro apiUrl p status body h₁ h₂
    simp [sendEmail, statusOk_true_of status h₁ h₂]
  · intro apiUrl p status body h₁ h₂
    simp [sendTemplate, statusOk_true_of status h₁ h₂]
  · intro apiUrl p status body h₁ h₂
    simp [sendTest, statusOk_true_of status h₁ h₂]
  · intro apiUrl p outcome s₀
    cases outcome with
    | resolved status body =>
      by_cases h : statusOk status <;>
        simp [subscribe, h, applyEffects, applyEffect, List.foldl]
    | thrown e => simp [subscribe, applyEffects, applyEffect, List.foldl]
  · intro apiUrl email outcome s₀
    cases outcome with
    | resolved status body =>
      by_cases h : statusOk status <;>
        simp [unsubscribe, h, applyEffects, applyEffect, List.foldl]
    | thrown e => simp [unsubscribe, applyEffects, applyEffect, List.foldl]
  · intro apiUrl p outcome s₀
    cases outcome with
    | resolved status body =>
      by_cases h : statusOk status <;>
        simp [sendEmail, h, applyEffects, applyEffect, List.foldl]
    | thrown e => simp [sendEmail, applyEffects, applyEffect, List.foldl]
  · intro apiUrl p outcome s₀
    cases outcome with
    | resolved status body =>
      by_cases h : statusOk status <;>
        simp [sendTemplate, h, applyEffects, applyEffect, List.foldl]
    | thrown e => simp [sendTemplate, applyEffects, applyEffect, List.foldl]
  · intro apiUrl p outcome s₀
    cases outcome with
    | resolved status body =>
      by_cases h : statusOk status <;>
        simp [sendTest, h, applyEffects, applyEffect, List.foldl]
    | thrown e => simp [sendTest, applyEffects, applyEffect, List.foldl]
  · rfl
  · intro s₀
    rfl

/-- C3 witness: the spec's concrete subscribe example, via `claim_C3`. -/
theorem claim_C3_witness :
    (subscribe "u" { email := "a@b.com" }
      (.resolved 200 { success := some true, person_id := some 42 })).1.success = true := by
  exact claim_C3.1 "u" { email := "a@b.com" } 200 { success := some true, person_id := some 42 }
    (by omega) (by omega)

/-- C4: the actions are total functions of their input and the fetch outcome
(every call resolves; no exception escapes, since every path of the source is
inside the try/catch), and on every failure outcome (non-ok status or a
throw) the resolved result has `success = false` while the hook's error
state field ends up set (non-null) for display. -/
theorem claim_C4 :
    (∀ apiUrl p outcome, isOkOutcome outcome = false →
      (subscribe apiUrl p outcome).1.success = false ∧
      ∀ s₀, ((applyEffects s₀ (subscribe apiUrl p outcome).2).error).isSome = true) ∧
    (∀ apiUrl email outcome, isOkOutcome outcome = false →
      (unsubscribe apiUrl email outcome).1.success = false ∧
      ∀ s₀, ((applyEffects s₀ (unsubscribe apiUrl email outcome).2).error).isSome = true) ∧
    (∀ apiUrl p outcome, isOkOutcome outcome = false →
      (sendEmail apiUrl p outcome).1.success = false ∧
      ∀ s₀, ((applyEffects s₀ (sendEmail apiUrl p outcome).2).error).isSome = true) ∧
    (∀ apiUrl p outcome, isOkOutcome outcome = false →
      (sendTemplate apiUrl p outcome).1.success = false ∧
      ∀ s₀, ((applyEffects s₀ (sendTemplate apiUrl p outcome).2).error).isSome = true) ∧
    (∀ apiUrl p outcome, isOkOutcome outcome = false →
      (sendTest apiUrl p outcome).1.success = false ∧
      ∀ s₀, ((applyEffects s₀ (sendTest apiUrl p outcome).2).error).isSome = true) := by
  refine ⟨?_, ?_, ?_, ?_, ?_⟩
  · intro apiUrl p outcome h
    cases outcome with
    | resolved status body =>
      have hok : statusOk status = false := by simpa [isOkOutcome] using h
      exact ⟨by simp [subscribe, hok],
        fun s₀ => by simp [subscribe, hok, applyEffects, applyEffect, List.foldl]⟩
    | thrown e =>
      exact ⟨by simp [subscribe],
        fun s₀ => by simp [subscribe, applyEffects, applyEffect, List.foldl]⟩
  · intro apiUrl email outcome h
    cases outcome with
    | resolved status body =>
      have hok : statusOk status = false := by simpa [isOkOutcome] using h
      exact ⟨by simp [unsubscribe, hok],
        fun s₀ => by simp [unsubscribe, hok, applyEffects, applyEffect, List.foldl]⟩
    | thrown e =>
      exact ⟨by simp [unsubscribe],
        fun s₀ => by simp [unsubscribe, applyEffects, applyEffect, List.foldl]⟩
  · intro apiUrl p outcome h
    cases outcome with
    | resolved status body =>
      have hok : statusOk status = false := by simpa [isOkOutcome] using h
      exact ⟨by simp [sendEmail, hok],
        fun s₀ => by simp [sendEmail, hok, applyEffects, applyEffect, List.foldl]⟩
    | thrown e =>
      exact ⟨by simp [sendEmail],
        fun s₀ => by simp [sendEmail, applyEffects, applyEffect, List.foldl]⟩
  · intro apiUrl p outcome h
    cases outcome with
    | resolved status body =>
      have hok : statusOk status = false := by simpa [isOkOutcome] using h
      exact ⟨by simp [sendTemplate, hok],
        fun s₀ => by simp [sendTemplate, hok, applyEffects, applyEffect, List.foldl]⟩
    | thrown e =>
      exact ⟨by simp [sendTemplate],
        fun s₀ => by simp [sendTemplate, applyEffects, applyEffect, List.foldl]⟩
  · intro apiUrl p outcome h
    cases outcome with
    | resolved status body =>
      have hok : statusOk status = false := by simpa [isOkOutcome] using h
      exact ⟨by simp [sendTest, hok],
        fun s₀ => by simp [sendTest, hok, applyEffects, applyEffect, List.foldl]⟩
    | thrown e =>
      exact ⟨by simp [sendTest],
        fun s₀ => by simp [sendTest, applyEffects, applyEffect, List.foldl]⟩

/-- C4 witness: a concrete thrown transport failure on `sendTest`, via
`claim_C4`. -/
theorem claim_C4_witness :
    (sendTest "u" { to_email := "t@e" } (.thrown .nonError)).1.success = false := by
  exact (claim_C4.2.2.2.2 "u" { to_email := "t@e" } (.thrown .nonError) rfl).1

/-- C6: every invocation of a hook action performs exactly one fetch call,
whatever the outcome (no retries): a POST to the configured URL with the
action's `action` query discriminator (`subscribe`, `unsubscribe`, `send`,
`send-template`, `test`), the `Content-Type: application/json` header, and
the JSON-serialized request body. -/
theorem claim_C6 :
    (∀ apiUrl p outcome, (subscribe apiUrl p outcome).2.filter isFetchCall =
      [.fetchCall { url := apiUrl ++ "?action=subscribe", method := "POST",
                    contentType := "application/json", body := p.toJson }]) ∧
    (∀ apiUrl email outcome, (unsubscribe apiUrl email outcome).2.filter isFetchCall =
      [.fetchCall { url := apiUrl ++ "?action=unsubscribe", method := "POST",
                    contentType := "application/json", body := unsubscribeBodyJson email }]) ∧
    (∀ apiUrl p outcome, (sendEmail apiUrl p outcome).2.filter isFetchCall =
      [.fetchCall { url := apiUrl ++ "?action=send", method := "POST",
                    contentType := "application/json", body := p.toJson }]) ∧
    (∀ apiUrl p outcome, (sendTemplate apiUrl p outcome).2.filter isFetchCall =
      [.fetchCall { url := apiUrl ++ "?action=send-template", method := "POST",
                    contentType := "application/json", body := p.toJson }]) ∧
    (∀ apiUrl p outcome, (sendTest apiUrl p outcome).2.filter isFetchCall =
      [.fetchCall { url := apiUrl ++ "?action=test", method := "POST",
                    contentType := "application/json", body := p.toJson }]) := by
  refine ⟨?_, ?_, ?_, ?_, ?_⟩
  · intro apiUrl p outcome
    cases outcome with
    | resolved status body =>
      by_cases h : statusOk status <;>
        simp [subscribe, subscribeRequest, h, isFetchCall, List.filter]
    | thrown e => simp [subscribe, subscribeRequest, isFetchCall, List.filter]
  · intro apiUrl email outcome
    cases outcome with
    | resolved status body =>
      by_cases h : statusOk status <;>
        simp [unsubscribe, unsubscribeRequest, h, isFetchCall, List.filter]
    | thrown e => simp [unsubscribe, unsubscribeRequest, isFetchCall, List.filter]
  · intro apiUrl p outcome
    cases outcome with
    | resolved status body =>
      by_cases h : statusOk status <;>
        simp [sendEmail, sendEmailRequest, h, isFetchCall, List.filter]
    | thrown e => simp [sendEmail, sendEmailRequest, isFetchCall, List.filter]
  · intro apiUrl p outcome
    cases outcome with
    | resolved status body =>
      by_cases h : statusOk status <;>
        simp [sendTemplate, sendTemplateRequest, h, isFetchCall, List.filter]
    | thrown e => simp [sendTemplate, sendTemplateRequest, isFetchCall, List.filter]
  · intro apiUrl p outcome
    cases outcome with
    | resolved status body =>
      by_cases h : statusOk status <;>
        simp [sendTest, sendTestRequest, h, isFetchCall, List.filter]
    | thrown e => simp [sendTest, sendTestRequest, isFetchCall, List.filter]

/-- C7: every hook action's trace starts with setting loading, then clearing
the error state to null, and only then the fetch call; folding the first two
effects over any prior hook state (in particular one holding the previous
call's error) leaves the error state null when the network request starts. -/
theorem claim_C7 :
    (∀ apiUrl p outcome,
      (subscribe apiUrl p outcome).2.take 3 =
        [.setLoading true, .setErrorState none, .fetchCall (subscribeRequest apiUrl p)] ∧
      ∀ s₀, (applyEffects s₀ ((subscribe apiUrl p outcome).2.take 2)).error = none) ∧
    (∀ apiUrl email outcome,
      (unsubscribe apiUrl email outcome).2.take 3 =
        [.setLoading true, .setErrorState none, .fetchCall (unsubscribeRequest apiUrl email)] ∧
      ∀ s₀, (applyEffects s₀ ((unsubscribe apiUrl email outcome).2.take 2)).error = none) ∧
    (∀ apiUrl p outcome,
      (sendEmail apiUrl p outcome).2.take 3 =
        [.setLoading true, .setErrorState none, .fetchCall (sendEmailRequest apiUrl p)] ∧
      ∀ s₀, (applyEffects s₀ ((sendEmail apiUrl p outcome).2.take 2)).error = none) ∧
    (∀ apiUrl p outcome,
      (sendTemplate apiUrl p outcome).2.take 3 =
        [.setLoading true, .setErrorState none, .fetchCall (sendTemplateRequest apiUrl p)] ∧
      ∀ s₀, (applyEffects s₀ ((sendTemplate apiUrl p outcome).2.take 2)).error = none) ∧
    (∀ apiUrl p outcome,
      (sendTest apiUrl p outcome).2.take 3 =
        [.setLoading true, .setErrorState none, .fetchCall (sendTestRequest apiUrl p)] ∧
      ∀ s₀, (applyEffects s₀ ((sendTest apiUrl p outcome).2.take 2)).error = none) := by
  refine ⟨?_, ?_, ?_, ?_, ?_⟩
  · intro apiUrl p outcome
    cases outcome with
    | resolved status body =>
      by_cases h : statusOk status <;>
        exact ⟨by simp [subscribe, h], fun s₀ => by
          simp [subscribe, h, applyEffects, applyEffect, List.foldl]⟩
    | thrown e =>
      exact ⟨by simp [subscribe], fun s₀ => by
        simp [subscribe, applyEffects, applyEffect, List.foldl]⟩
  · intro apiUrl email outcome
    cases outcome with
    | resolved status body =>
      by_cases h : statusOk status <;>
        exact ⟨by simp [unsubscribe, h], fun s₀ => by
          simp [unsubscribe, h, applyEffects, applyEffect, List.foldl]⟩
    | thrown e =>
      exact ⟨by simp [unsubscribe], fun s₀ => by
        simp [unsubscribe, applyEffects, applyEffect, List.foldl]⟩
  · intro apiUrl p outcome
    cases outcome with
    | resolved status body =>
      by_cases h : statusOk status <;>
        exact ⟨by simp [sendEmail, h], fun s₀ => by
          simp [sendEmail, h, applyEffects, applyEffect, List.foldl]⟩
    | thrown e =>
      exact ⟨by simp [sendEmail], fun s₀ => by
        simp [sendEmail, applyEffects, applyEffect, List.foldl]⟩
  · intro apiUrl p outcome
    cases outcome with
    | resolved status body =>
      by_cases h : statusOk status <;>
        exact ⟨by simp [sendTemplate, h], fun s₀ => by
          simp [sendTemplate, h, applyEffects, applyEffect, List.foldl]⟩
    | thrown e =>
      exact ⟨by simp [sendTemplate], fun s₀ => by
        simp [sendTemplate, applyEffects, applyEffect, List.foldl]⟩
  · intro apiUrl p outcome
    cases outcome with
    | resolved status body =>
      by_cases h : statusOk status <;>
        exact ⟨by simp [sendTest, h], fun s₀ => by
          simp [sendTest, h, applyEffects, applyEffect, List.foldl]⟩
    | thrown e =>
      exact ⟨by simp [sendTest], fun s₀ => by
        simp [sendTest, applyEffects, applyEffect, List.foldl]⟩

/-- C9: for every hook action, success is determined solely by the ok status:
any resolved ok response, whatever its body (including one carrying
`success: false` or an `error` field), yields `success = true` and a null
final error state; and the body's `success` field is never inspected: the
whole result/trace pair is unchanged when that field is replaced. -/
theorem claim_C9 :
    (∀ apiUrl p status body, statusOk status = true →
      (subscribe apiUrl p (.resolved status body)).1.success = true ∧
      ∀ s₀, (applyEffects s₀ (subscribe apiUrl p (.resolved status body)).2).error = none) ∧
    (∀ apiUrl email status body, statusOk status = true →
      (unsubscribe apiUrl email (.resolved status body)).1.success = true ∧
      ∀ s₀, (applyEffects s₀ (unsubscribe apiUrl email (.resolved status body)).2).error = none) ∧
    (∀ apiUrl p status body, statusOk status = true →
      (sendEmail apiUrl p (.resolved status body)).1.success = true ∧
      ∀ s₀, (applyEffects s₀ (sendEmail apiUrl p (.resolved status body)).2).error = none) ∧
    (∀ apiUrl p status body, statusOk status = true →
      (sendTemplate apiUrl p (.resolved status body)).1.success = true ∧
      ∀ s₀, (applyEffects s₀ (sendTemplate apiUrl p (.resolved status body)).2).error = none) ∧
    (∀ apiUrl p status body, statusOk status = true →
      (sendTest apiUrl p (.resolved status body)).1.success = true ∧
      ∀ s₀, (applyEffects s₀ (sendTest apiUrl p (.resolved status body)).2).error = none) ∧
    (∀ apiUrl p status body v,
      subscribe apiUrl p (.resolved status { body with success := v }) =
        subscribe apiUrl p (.resolved status body)) ∧
    (∀ apiUrl email status body v,
      unsubscribe apiUrl email (.resolved status { body with success := v }) =
        unsubscribe apiUrl email (.resolved status body)) ∧
    (∀ apiUrl p status body v,
      sendEmail apiUrl p (.resolved status { body with success := v }) =
        sendEmail apiUrl p (.resolved status body)) ∧
    (∀ apiUrl p status body v,
      sendTemplate apiUrl p (.resolved status { body with success := v }) =
        sendTemplate apiUrl p (.resolved status body)) ∧
    (∀ apiUrl p status body v,
      sendTest apiUrl p (.resolved status { body with success := v }) =
        sendTest apiUrl p (.resolved status body)) := by
  refine ⟨?_, ?_, ?_, ?_, ?_, ?_, ?_, ?_, ?_, ?_⟩
  · intro apiUrl p status body h
    exact ⟨by simp [subscribe, h],
      fun s₀ => by simp [subscribe, h, applyEffects, applyEffect, List.foldl]⟩
  · intro apiUrl email status body h
    exact ⟨by simp [unsubscribe, h],
      fun s₀ => by simp [unsubscribe, h, applyEffects, applyEffect, List.foldl]⟩
  · intro apiUrl p status body h
    exact ⟨by simp [sendEmail, h],
      fun s₀ => by simp [sendEmail, h, applyEffects, applyEffect, List.foldl]⟩
  · intro apiUrl p status body h
    exact ⟨by simp [sendTemplate, h],
      fun s₀ => by simp [sendTemplate, h, applyEffects, applyEffect, List.foldl]⟩
  · intro apiUrl p status body h
    exact ⟨by simp [sendTest, h],
      fun s₀ => by simp [sendTest, h, applyEffects, applyEffect, List.foldl]⟩
  · intro apiUrl p status body v
    by_cases h : statusOk status <;> simp [subscribe, h]
  · intro apiUrl email status body v
    by_cases h : statusOk status <;> simp [unsubscribe, h]
  · intro apiUrl p status body v
    by_cases h : statusOk status <;> simp [sendEmail, h]
  · intro apiUrl p status body v
    by_cases h : statusOk status <;> simp [sendTemplate, h]
  · intro apiUrl p status body v
    by_cases h : statusOk status <;> simp [sendTest, h]

/-- C9 witness: an ok response whose body says `success: false` and carries
an `error` field still resolves successfully, via `claim_C9`. -/
theorem claim_C9_witness :
    (sendTest "u" { to_email := "t@e" }
      (.resolved 200 { success := some false, error := some "ignored" })).1.success = true := by
  exact (claim_C9.2.2.2.2.1 "u" { to_email := "t@e" } 200
    { success := some false, error := some "ignored" } rfl).1

/-- C10: for every hook action, a non-2xx response whose body lacks an
`error` field sets the hook's error state to the action-specific fallback
string ("Subscribe failed", "Unsubscribe failed", "Send failed" for both
send actions, "Test failed") while the resolved result's `error` field stays
absent, so the displayed and the returned error diverge. -/
theorem claim_C10 :
    (∀ apiUrl p status body, ¬ (200 ≤ status ∧ status < 300) → body.error = none →
      (subscribe apiUrl p (.resolved status body)).1.error = none ∧
      ∀ s₀, (applyEffects s₀ (subscribe apiUrl p (.resolved status body)).2).error
        = some "Subscribe failed") ∧
    (∀ apiUrl email status body, ¬ (200 ≤ status ∧ status < 300) → body.error = none →
      (unsubscribe apiUrl email (.resolved status body)).1.error = none ∧
      ∀ s₀, (applyEffects s₀ (unsubscribe apiUrl email (.resolved status body)).2).error
        = some "Unsubscribe failed") ∧
    (∀ apiUrl p status body, ¬ (200 ≤ status ∧ status < 300) → body.error = none →
      (sendEmail apiUrl p (.resolved status body)).1.error = none ∧
      ∀ s₀, (applyEffects s₀ (sendEmail apiUrl p (.resolved status body)).2).error
        = some "Send failed") ∧
    (∀ apiUrl p status body, ¬ (200 ≤ status ∧ status < 300) → body.error = none →
      (sendTemplate apiUrl p (.resolved status body)).1.error = none ∧
      ∀ s₀, (applyEffects s₀ (sendTemplate apiUrl p (.resolved status body)).2).error
        = some "Send failed") ∧
    (∀ apiUrl p status body, ¬ (200 ≤ status ∧ status < 300) → body.error = none →
      (sendTest apiUrl p (.resolved status body)).1.error = none ∧
      ∀ s₀, (applyEffects s₀ (sendTest apiUrl p (.resolved status body)).2).error
        = some "Test failed") := by
  refine ⟨?_, ?_, ?_, ?_, ?_⟩
  · intro apiUrl p status body h he
    have hok := statusOk_false_of_not2xx h
    exact ⟨by simp [subscribe, hok, he], fun s₀ => by
      simp [subscribe, hok, he, jsOrString, applyEffects, applyEffect, List.foldl]⟩
  · intro apiUrl email status body h he
    have hok := statusOk_false_of_not2xx h
    exact ⟨by simp [unsubscribe, hok, he], fun s₀ => by
      simp [unsubscribe, hok, he, jsOrString, applyEffects, applyEffect, List.foldl]⟩
  · intro apiUrl p status body h he
    have hok := statusOk_false_of_not2xx h
    exact ⟨by simp [sendEmail, hok, he], fun s₀ => by
      simp [sendEmail, hok, he, jsOrString, applyEffects, applyEffect, List.foldl]⟩
  · intro apiUrl p status body h he
    have hok := statusOk_false_of_not2xx h
    exact ⟨by simp [sendTemplate, hok, he], fun s₀ => by
      simp [sendTemplate, hok, he, jsOrString, applyEffects, applyEffect, List.foldl]⟩
  · intro apiUrl p status body h he
    have hok := statusOk_false_of_not2xx h
    exact ⟨by simp [sendTest, hok, he], fun s₀ => by
      simp [sendTest, hok, he, jsOrString, applyEffects, applyEffect, List.foldl]⟩

/-- C10 witness: a 500 response with an empty body on `sendTemplate`, via
`claim_C10`. -/
theorem claim_C10_witness :
    (sendTemplate "u" { to_email := "t@e", template_id := "tpl" }
      (.resolved 500 {})).1.error = none ∧
    (applyEffects { isLoading := false, error := none }
      (sendTemplate "u" { to_email := "t@e", template_id := "tpl" }
        (.resolved 500 {})).2).error = some "Send failed" := by
  have h := claim_C10.2.2.2.1 "u" { to_email := "t@e", template_id := "tpl" } 500 {}
    (by omega) rfl
  exact ⟨h.1, h.2 { isLoading := false, error := none }⟩

/-- C2 counterexample: when the awaited chain throws an `Error` instance (the
usual case for a network failure or a non-JSON body, which throw `TypeError`
or `SyntaxError`), the code surfaces that exception's own message, not the
generic "Network error" text: a `sendEmail` call whose fetch throws an
`Error` with message "connection reset" resolves with exactly that
exception-specific text in `result.error`. -/
theorem claim_C2_counterexample :
    (sendEmail "u" { to_email := "t@e", subject := "s", body_html := "b" }
      (.thrown (.jsError "connection reset"))).1.error = some "connection reset" ∧
    some "connection reset" ≠ some "Network error" := by
  exact ⟨rfl, by decide⟩

/-- C2 amended: when the network call or JSON parsing throws, every hook
action resolves with `success = false`; `result.error` and the hook's error
state hold the thrown `Error`'s own message when the thrown value is an
`Error` instance, and the generic "Network error" string only when a
non-`Error` value was thrown. -/
theorem claim_C2 :
    (∀ apiUrl p e, (subscribe apiUrl p (.thrown e)).1.success = false ∧
      (subscribe apiUrl p (.thrown e)).1.error = some (thrownMessage e) ∧
      ∀ s₀, (applyEffects s₀ (subscribe apiUrl p (.thrown e)).2).error
        = some (thrownMessage e)) ∧
    (∀ apiUrl email e, (unsubscribe apiUrl email (.thrown e)).1.success = false ∧
      (unsubscribe apiUrl email (.thrown e)).1.error = some (thrownMessage e) ∧
      ∀ s₀, (applyEffects s₀ (unsubscribe apiUrl email (.thrown e)).2).error
        = some (thrownMessage e)) ∧
    (∀ apiUrl p e, (sendEmail apiUrl p (.thrown e)).1.success = false ∧
      (sendEmail apiUrl p (.thrown e)).1.error = some (thrownMessage e) ∧
      ∀ s₀, (applyEffects s₀ (sendEmail apiUrl p (.thrown e)).2).error
        = some (thrownMessage e)) ∧
    (∀ apiUrl p e, (sendTemplate apiUrl p (.thrown e)).1.success = false ∧
      (sendTemplate apiUrl p (.thrown e)).1.error = some (thrownMessage e) ∧
      ∀ s₀, (applyEffects s₀ (sendTemplate apiUrl p (.thrown e)).2).error
        = some (thrownMessage e)) ∧
    (∀ apiUrl p e, (sendTest apiUrl p (.thrown e)).1.success = false ∧
      (sendTest apiUrl p (.thrown e)).1.error = some (thrownMessage e) ∧
      ∀ s₀, (applyEffects s₀ (sendTest apiUrl p (.thrown e)).2).error
        = some (thrownMessage e)) ∧
    thrownMessage .nonError = "Network error" ∧
    ∀ m, thrownMessage (.jsError m) = m := by
  refine ⟨?_, ?_, ?_, ?_, ?_, rfl, fun m => rfl⟩
  · intro apiUrl p e
    exact ⟨rfl, rfl, fun s₀ => by
      simp [subscribe, applyEffects, applyEffect, List.foldl]⟩
  · intro apiUrl email e
    exact ⟨rfl, rfl, fun s₀ => by
      simp [unsubscribe, applyEffects, applyEffect, List.foldl]⟩
  · intro apiUrl p e
    exact ⟨rfl, rfl, fun s₀ => by
      simp [sendEmail, applyEffects, applyEffect, List.foldl]⟩
  · intro apiUrl p e
    exact ⟨rfl, rfl, fun s₀ => by
      simp [sendTemplate, applyEffects, applyEffect, List.foldl]⟩
  · intro apiUrl p e
    exact ⟨rfl, rfl, fun s₀ => by
      simp [sendTest, applyEffects, applyEffect, List.foldl]⟩

/-- A `handleTest` run performs either no storage operation or the single
write of "true" under the storage key. -/
theorem handleTest_storage_ops (apiUrl storageKey : String) (s : ButtonState)
    (outcome : FetchOutcome) :
    (handleTest apiUrl storageKey s outcome).2 = [] ∨
    (handleTest apiUrl storageKey s outcome).2 = [.write storageKey "true"] := by
  by_cases h1 : jsTrim s.email = ""
  · left
    simp [handleTest, h1]
  · cases hI : jsIncludes s.email "@" with
    | false => left; simp [handleTest, h1, hI]
    | true =>
      cases hS : (sendTest apiUrl { to_email := jsTrim s.email } outcome).1.success with
      | false => left; simp [handleTest, h1, hI, hS]
      | true => right; simp [handleTest, h1, hI, hS]

/-- Every storage operation of an event run after mount is a write of "true"
under the storage key. -/
theorem runEvents_storage_ops (apiUrl storageKey : String) :
    ∀ (events : List ButtonEvent) (s : ButtonState) (op : StorageOp),
      op ∈ (runEvents apiUrl storageKey s events).2 → op = .write storageKey "true" := by
  intro events
  induction events with
  | nil =>
    intro s op h
    simp [runEvents] at h
  | cons e es ih =>
    intro s op h
    simp only [runEvents] at h
    rcases List.mem_append.mp h with h | h
    · cases e with
      | setEmail v => simp [buttonStep] at h
      | clickTest outcome =>
        cases hc : s.isConfigured with
        | true => simp [buttonStep, hc] at h
        | false =>
          simp only [buttonStep, hc, Bool.false_eq_true, if_false] at h
          rcases handleTest_storage_ops apiUrl storageKey s outcome with he | he <;>
            rw [he] at h
          · simp at h
          · simpa using h
      | timerFire =>
        cases ht : s.timer with
        | some d => simp [buttonStep, ht] at h
        | none => simp [buttonStep, ht] at h
    · exact ih _ op h

/-- C5 counterexample: with the stored flag equal to "true" but the
`forceShow` prop set, the banner still renders after the mount effect, so
the banner does not render only when the flag is absent or not "true". -/
theorem claim_C5_counterexample :
    rendersBanner (mountButton "unisender_configured" true (some "true")
      initialButtonState).1 = true := by
  rfl

/-- C5 amended: after the mount effect the banner renders exactly when the
stored flag is not "true" or the `forceShow` prop is set; a test click with
a valid email and an ok outcome writes "true" under the storage key and
schedules the 3000 ms hide timer; once a hide timer is pending, its firing
stops the banner from rendering. -/
theorem claim_C5 :
    (∀ storageKey forceShow stored s,
      rendersBanner (mountButton storageKey forceShow stored s).1 = true ↔
        ¬ (stored = some "true" ∧ forceShow = false)) ∧
    (∀ apiUrl storageKey s outcome,
      jsTrim s.email ≠ "" → jsIncludes s.email "@" = true → isOkOutcome outcome = true →
      (handleTest apiUrl storageKey s outcome).2 = [.write storageKey "true"] ∧
      (handleTest apiUrl storageKey s outcome).1.timer = some 3000) ∧
    (∀ apiUrl storageKey s d, s.timer = some d →
      rendersBanner (buttonStep apiUrl storageKey s .timerFire).1 = false) := by
  refine ⟨?_, ?_, ?_⟩
  · intro storageKey forceShow stored s
    cases forceShow <;> by_cases hs : stored = some "true" <;>
      simp [mountButton, rendersBanner, hs]
  · intro apiUrl storageKey s outcome h1 h2 h3
    have hres : (sendTest apiUrl { to_email := jsTrim s.email } outcome).1.success = true := by
      cases outcome with
      | resolved status body =>
        have hok : statusOk status = true := by simpa [isOkOutcome] using h3
        simp [sendTest, hok]
      | thrown e => simp [isOkOutcome] at h3
    exact ⟨by simp [handleTest, h1, h2, hres], by simp [handleTest, h1, h2, hres]⟩
  · intro apiUrl storageKey s d ht
    simp [buttonStep, ht, rendersBanner]

/-- C5 witness: a concrete successful test click writes the flag and
schedules the hide timer, via `claim_C5`. -/
theorem claim_C5_witness :
    (handleTest "u" "k" ⟨false, "a@b.com", .idle, "", none⟩ (.resolved 200 {})).2
      = [.write "k" "true"] ∧
    (handleTest "u" "k" ⟨false, "a@b.com", .idle, "", none⟩ (.resolved 200 {})).1.timer
      = some 3000 := by
  exact claim_C5.2.1 "u" "k" ⟨false, "a@b.com", .idle, "", none⟩ (.resolved 200 {})
    (by decide) (by decide) (by decide)

/-- C8 counterexample: one mount with the key absent followed by two
successful test sends (the second clicked during the 3-second window before
the banner hides) performs two writes of the flag, so the key is not written
exactly once on the first successful test send. -/
theorem claim_C8_counterexample :
    (runButton "u" "k" false none
      [.setEmail "a@b.com", .clickTest (.resolved 200 {}), .clickTest (.resolved 200 {})]).2
      = [.read "k", .write "k" "true", .write "k" "true"] := by
  decide

/-- C8 amended: in every component run the storage trace is the single mount
read of the storage key followed only by writes of "true" to that same key,
one per successful test send (so possibly several, since nothing stops a
second successful send before the banner hides); a test click whose outcome
is not an ok response performs no storage operation at all. -/
theorem claim_C8 :
    (∀ apiUrl storageKey forceShow stored events,
      ∃ ws, (runButton apiUrl storageKey forceShow stored events).2
          = .read storageKey :: ws ∧
        ∀ op ∈ ws, op = .write storageKey "true") ∧
    (∀ apiUrl storageKey s outcome, isOkOutcome outcome = false →
      (handleTest apiUrl storageKey s outcome).2 = []) := by
  constructor
  · intro apiUrl storageKey forceShow stored events
    refine ⟨(runEvents apiUrl storageKey
        (mountButton storageKey forceShow stored initialButtonState).1 events).2, rfl, ?_⟩
    intro op h
    exact runEvents_storage_ops apiUrl storageKey events _ op h
  · intro apiUrl storageKey s outcome hfail
    have hsucc : (sendTest apiUrl { to_email := jsTrim s.email } outcome).1.success = false := by
      cases outcome with
      | resolved status body =>
        have hok : statusOk status = false := by simpa [isOkOutcome] using hfail
        simp [sendTest, hok]
      | thrown e => simp [sendTest]
    by_cases h1 : jsTrim s.email = ""
    · simp [handleTest, h1]
    · cases hI : jsIncludes s.email "@" with
      | false => simp [handleTest, h1, hI]
      | true => simp [handleTest, h1, hI, hsucc]

/-- C8 witness: a concrete run's storage trace and a failing click with no
storage traffic, via `claim_C8`. -/
theorem claim_C8_witness :
    (∃ ws, (runButton "u" "k" false none [.clickTest (.resolved 200 {})]).2
        = .read "k" :: ws ∧ ∀ op ∈ ws, op = .write "k" "true") ∧
    (handleTest "u" "k" initialButtonState (.thrown .nonError)).2 = [] :=
  ⟨claim_C8.1 "u" "k" false none [.clickTest (.resolved 200 {})],
   claim_C8.2 "u" "k" initialButtonState (.thrown .nonError) rfl⟩

end Unisender
